import Mathlib

/-!
Verification model of the embedded light scheduler
(`src/subscriber/mqtt_subscriber.py` and `src/backend/websocket_server.py`).

The subscriber keeps a schedule received over MQTT and, once per second,
compares the wall-clock minute against the schedule, writing a one-byte
command over a serial link; the backend relays WebSocket payloads to the
MQTT bus.  Times are natural-number seconds, wall-clock minutes are the
`HH:MM` strings the Python code compares, and the outcomes of the external
calls (serial write, serial open, JSON parse) are environment inputs.
-/

/-- `SERIAL_RECONNECT_DELAY_SECONDS` from the subscriber configuration. -/
def SERIAL_RECONNECT_DELAY_SECONDS : Nat := 10

/-- The mutable globals of the subscriber: `current_schedule` (two `Option`al
time strings, both `None` initially), whether `arduino` is a live open
port, `last_command_sent_minute`, `last_known_state` (`'0'`, `'1'` or
`None`) and `last_serial_connect_attempt`. -/
structure SubState where
  schedule_on : Option String
  schedule_off : Option String
  connected : Bool
  last_command_sent_minute : Option String
  last_known_state : Option Char
  last_serial_connect_attempt : Nat
deriving DecidableEq, Repr

/-- One iteration of the main loop reads `time.time()` (`now`) and
`datetime.now().strftime(%H:%M)` (`minute`); `reconnectOk` is the outcome
`setup_serial` would have (used only if a reconnect is attempted) and
`sendOk` the outcome `arduino.write` would have (used only if a send is
attempted). -/
structure TickEnv where
  now : Nat
  minute : String
  reconnectOk : Bool
  sendOk : Bool
deriving DecidableEq, Repr

/-- Observable effects of one loop iteration: whether `setup_serial` was
invoked (a reconnect attempt), and the serial command attempted, if any,
paired with whether the write succeeded. -/
structure TickOut where
  reconnectAttempted : Bool
  send : Option (Char × Bool)
deriving DecidableEq, Repr

/-- The serial-reconnect block at the top of the main loop: when the port
is down and more than `SERIAL_RECONNECT_DELAY_SECONDS` have passed since
`last_serial_connect_attempt`, record the attempt time and call
`setup_serial` (which clears `last_known_state` unconditionally); on
success the main loop also clears `last_command_sent_minute`.  Returns the
new state and whether an attempt was made. -/
def reconnectPhase (s : SubState) (e : TickEnv) : SubState × Bool :=
  if s.connected then (s, false)
  else if SERIAL_RECONNECT_DELAY_SECONDS < e.now - s.last_serial_connect_attempt then
    if e.reconnectOk then
      ({ s with connected := true,
                last_known_state := none,
                last_command_sent_minute := none,
                last_serial_connect_attempt := e.now }, true)
    else
      ({ s with last_known_state := none,
                last_serial_connect_attempt := e.now }, true)
  else (s, false)

/-- The schedule block of the main loop: runs only while the port is open;
checks the ON condition first and the OFF condition only in an `elif`.  A
send that fails closes the port (`send_to_arduino` sets `arduino = None`)
and, because of the `if arduino:` guard, leaves `last_command_sent_minute`
unchanged; a send that succeeds records the state and the minute; a
suppressed send (state already as desired) still records the minute. -/
def schedulePhase (s : SubState) (minute : String) (sendOk : Bool) :
    SubState × Option (Char × Bool) :=
  if s.connected then
    if s.schedule_on = some minute then
      if s.last_command_sent_minute ≠ some minute then
        if s.last_known_state ≠ some '1' then
          if sendOk then
            ({ s with last_known_state := some '1',
                      last_command_sent_minute := some minute }, some ('1', true))
          else
            ({ s with connected := false }, some ('1', false))
        else ({ s with last_command_sent_minute := some minute }, none)
      else (s, none)
    else if s.schedule_off = some minute then
      if s.last_command_sent_minute ≠ some minute then
        if s.last_known_state ≠ some '0' then
          if sendOk then
            ({ s with last_known_state := some '0',
                      last_command_sent_minute := some minute }, some ('0', true))
          else
            ({ s with connected := false }, some ('0', false))
        else ({ s with last_command_sent_minute := some minute }, none)
      else (s, none)
    else (s, none)
  else (s, none)

/-- One full iteration of the main `while` loop of the subscriber: the reconnect
block followed by the schedule block. -/
def subscriberTick (s : SubState) (e : TickEnv) : SubState × TickOut :=
  let r := reconnectPhase s e
  let p := schedulePhase r.1 e.minute e.sendOk
  (p.1, { reconnectAttempted := r.2, send := p.2 })

/-- The outputs of a sequence of loop iterations. -/
def runTickOuts (s : SubState) : List TickEnv → List TickOut
  | [] => []
  | e :: es => (subscriberTick s e).2 :: runTickOuts (subscriberTick s e).1 es

/-- The state after a sequence of loop iterations. -/
def runSubState (s : SubState) : List TickEnv → SubState
  | [] => s
  | e :: es => runSubState (subscriberTick s e).1 es

/-- The times (`time.time()` values) of the iterations that attempted a
serial reconnect, in order. -/
def runAttemptTimes (s : SubState) : List TickEnv → List Nat
  | [] => []
  | e :: es =>
    if (subscriberTick s e).2.reconnectAttempted then
      e.now :: runAttemptTimes (subscriberTick s e).1 es
    else runAttemptTimes (subscriberTick s e).1 es

/-- Whether an iteration wrote a command to the device successfully. -/
def isSuccessSend (o : TickOut) : Bool :=
  match o.send with
  | some (_, true) => true
  | _ => false

/-- Number of successfully written serial commands in a list of outputs. -/
def sentCount : List TickOut → Nat
  | [] => 0
  | o :: rest => (if isSuccessSend o then 1 else 0) + sentCount rest

/-- JSON values as produced by `json.loads`.  Objects are key/value lists;
`json.loads` yields dicts, so keys are unique. -/
inductive Json where
  | null
  | bool (b : Bool)
  | num (n : Int)
  | str (s : String)
  | arr (xs : List Json)
  | obj (kvs : List (String × Json))

/-- Dictionary lookup (`schedule_data[k]`); also decides `k in schedule_data`
via `Option.isSome`. -/
def lookupKey (kvs : List (String × Json)) (k : String) : Option Json :=
  match kvs with
  | [] => none
  | (k2, v) :: rest => if k2 == k then some v else lookupKey rest k

/-- The hour alternatives of the compiled CPython regex for `%H`, namely
`2[0-3]`, `[0-1]\d`, `\d`, in that order; each returns the unconsumed
remainder.  (`\d` is modelled as an ASCII digit; the claims only involve
ASCII inputs.) -/
def hourAlternatives (cs : List Char) : List (List Char) :=
  (match cs with
   | '2' :: c :: rest =>
     if c == '0' || c == '1' || c == '2' || c == '3' then [rest] else []
   | _ => []) ++
  (match cs with
   | a :: b :: rest =>
     if (a == '0' || a == '1') && b.isDigit then [rest] else []
   | _ => []) ++
  (match cs with
   | a :: rest => if a.isDigit then [rest] else []
   | _ => [])

/-- The minute alternatives of the compiled CPython regex for `%M`, namely
`[0-5]\d`, `\d`, in that order. -/
def minuteAlternatives (cs : List Char) : List (List Char) :=
  (match cs with
   | a :: b :: rest =>
     if (a == '0' || a == '1' || a == '2' || a == '3' || a == '4' || a == '5')
        && b.isDigit then [rest] else []
   | _ => []) ++
  (match cs with
   | a :: rest => if a.isDigit then [rest] else []
   | _ => [])

/-- `re.match` of the `%H:%M` pattern: try the hour alternatives in order,
require a literal colon, then the minute alternatives in order, and return
the remainder of the first path that completes (the leftmost, first-alternative
match of the regex engine). -/
def matchHM (cs : List Char) : Option (List Char) :=
  (hourAlternatives cs).findSome? fun r1 =>
    match r1 with
    | ':' :: r2 => (minuteAlternatives r2).head?
    | _ => none

/-- `datetime.strptime(s, %H:%M)` succeeds iff the pattern matches and no
unconverted data remains (the leftover check is performed after the match,
outside the regex backtracking). -/
def validHM (s : String) : Bool :=
  match matchHM s.data with
  | some rest => rest.isEmpty
  | none => false

/-- The `on_message` callback of the subscriber, applied to the result of
`json.loads` on the payload (`none` models a `JSONDecodeError`).  On a dict
with both keys whose values are strings accepted by `strptime`, it
overwrites both schedule fields and clears `last_command_sent_minute`.  Its
`last_known_state = None` line binds a function-local name — the `global`
declaration of the callback lists only `current_schedule` and
`last_command_sent_minute` — so the global `last_known_state` is left
unchanged.  A non-string value raises `TypeError` inside `strptime`, which
the outer handler catches, leaving the state unchanged, like every other
failure path. -/
def onMessage (s : SubState) (payload : Option Json) : SubState :=
  match payload with
  | none => s
  | some (Json.obj kvs) =>
    match lookupKey kvs "on_time", lookupKey kvs "off_time" with
    | some von, some voff =>
      match von, voff with
      | Json.str a, Json.str b =>
        if validHM a && validHM b then
          { s with schedule_on := some a,
                   schedule_off := some b,
                   last_command_sent_minute := none }
        else s
      | _, _ => s
    | _, _ => s
  | some _ => s

/-- A payload on which `on_message` performs the schedule update: a dict
with both keys, both values strings that `strptime(%H:%M)` accepts. -/
def scheduleOk (j : Json) : Bool :=
  match j with
  | Json.obj kvs =>
    match lookupKey kvs "on_time", lookupKey kvs "off_time" with
    | some (Json.str a), some (Json.str b) => validHM a && validHM b
    | _, _ => false
  | _ => false

/-- The `status` field of the JSON reply of the backend. -/
inductive RespStatus where
  | success
  | error
deriving DecidableEq, Repr

/-- The `message` field of the JSON reply of the backend, one constructor per
distinct literal in `handle_connection`: schedule published, publish
failed, invalid format (missing keys or not a dict), invalid JSON. -/
inductive RespMsg where
  | publishedOk
  | publishFailed
  | invalidFormat
  | invalidJson
deriving DecidableEq, Repr

/-- The reply `handle_connection` sends back over the WebSocket. -/
structure Response where
  status : RespStatus
  msg : RespMsg
deriving DecidableEq, Repr

/-- The structural validation of the backend: `isinstance(schedule_data, dict)`
and both keys present. -/
def isScheduleShape : Json → Bool
  | Json.obj kvs => (lookupKey kvs "on_time").isSome && (lookupKey kvs "off_time").isSome
  | _ => false

/-- One message iteration of `handle_connection` in the backend: `raw` is
the payload exactly as received, `parsed` the result of `json.loads raw`
(`none` for a `JSONDecodeError`), `publishOk` the outcome
`publish_to_mqtt` would report.  Returns the payloads handed to
`publish_to_mqtt` (note the original `message`, not a re-serialization)
and the reply sent to the client. -/
def handleMessage (raw : String) (parsed : Option Json) (publishOk : Bool) :
    List String × Response :=
  match parsed with
  | none => ([], ⟨RespStatus.error, RespMsg.invalidJson⟩)
  | some j =>
    if isScheduleShape j then
      if publishOk then ([raw], ⟨RespStatus.success, RespMsg.publishedOk⟩)
      else ([raw], ⟨RespStatus.error, RespMsg.publishFailed⟩)
    else ([], ⟨RespStatus.error, RespMsg.invalidFormat⟩)

/-- The schedule block never touches `last_serial_connect_attempt`. -/
lemma schedulePhase_last_attempt (s : SubState) (m : String) (ok : Bool) :
    (schedulePhase s m ok).1.last_serial_connect_attempt =
      s.last_serial_connect_attempt := by
  unfold schedulePhase
  split_ifs <;> rfl

/-- The reconnect block never touches the schedule fields. -/
lemma reconnectPhase_schedule_on (s : SubState) (e : TickEnv) :
    (reconnectPhase s e).1.schedule_on = s.schedule_on := by
  unfold reconnectPhase
  split_ifs <;> rfl

/-- An iteration that starts connected with the debounce minute already
equal to the current minute changes nothing and produces no effect. -/
lemma frozen_tick (s : SubState) (e : TickEnv) (hc : s.connected = true)
    (hm : s.last_command_sent_minute = some e.minute) :
    subscriberTick s e = (s, ⟨false, none⟩) := by
  unfold subscriberTick reconnectPhase schedulePhase
  simp only [hc, if_true, hm]
  split_ifs <;> simp_all

/-- A run of same-minute iterations started connected with that minute
already recorded writes no command at all. -/
lemma frozen_run_count (m : String) :
    ∀ (envs : List TickEnv) (s : SubState),
    (∀ e ∈ envs, e.minute = m) → s.connected = true →
    s.last_command_sent_minute = some m →
    sentCount (runTickOuts s envs) = 0 := by
  intro envs
  induction envs with
  | nil => intro s _ _ _; rfl
  | cons e es ih =>
    intro s hall hc hm
    have he : e.minute = m := hall e (List.mem_cons_self e es)
    have ht : subscriberTick s e = (s, ⟨false, none⟩) :=
      frozen_tick s e hc (by rw [he]; exact hm)
    simp only [runTickOuts, ht, sentCount, isSuccessSend]
    simpa using ih s (fun x hx => hall x (List.mem_cons_of_mem e hx)) hc hm

/-- A successful write leaves the port open and records the current minute
in `last_command_sent_minute`. -/
lemma schedulePhase_success (s : SubState) (m : String) (ok : Bool) (c : Char)
    (h : (schedulePhase s m ok).2 = some (c, true)) :
    (schedulePhase s m ok).1.connected = true ∧
    (schedulePhase s m ok).1.last_command_sent_minute = some m := by
  unfold schedulePhase at h ⊢
  split_ifs at h ⊢ <;> simp_all

/-- Lifting of `schedulePhase_success` to a whole iteration. -/
lemma success_post (s : SubState) (e : TickEnv) (c : Char)
    (h : (subscriberTick s e).2.send = some (c, true)) :
    (subscriberTick s e).1.connected = true ∧
    (subscriberTick s e).1.last_command_sent_minute = some e.minute :=
  schedulePhase_success (reconnectPhase s e).1 e.minute e.sendOk c h

/-- A successfully writing output exposes its command. -/
lemma isSuccessSend_some (o : TickOut) (h : isSuccessSend o = true) :
    ∃ c, o.send = some (c, true) := by
  rcases ho : o.send with _ | ⟨c, b⟩
  · simp [isSuccessSend, ho] at h
  · cases b
    · simp [isSuccessSend, ho] at h
    · exact ⟨c, rfl⟩

/-- A reconnect attempt happens only when strictly more than the reconnect
delay has passed since the last connection attempt, and it stamps the
current time as the new attempt time. -/
lemma attempt_gate (s : SubState) (e : TickEnv)
    (h : (subscriberTick s e).2.reconnectAttempted = true) :
    s.last_serial_connect_attempt + SERIAL_RECONNECT_DELAY_SECONDS < e.now ∧
    (subscriberTick s e).1.last_serial_connect_attempt = e.now := by
  have hr : (subscriberTick s e).2.reconnectAttempted = (reconnectPhase s e).2 := rfl
  rw [hr] at h
  have hst : (subscriberTick s e).1.last_serial_connect_attempt =
      (reconnectPhase s e).1.last_serial_connect_attempt :=
    schedulePhase_last_attempt (reconnectPhase s e).1 e.minute e.sendOk
  rw [hst]
  unfold reconnectPhase at h ⊢
  unfold SERIAL_RECONNECT_DELAY_SECONDS at *
  split_ifs at h ⊢ <;> simp_all <;> omega

/-- An iteration without a reconnect attempt preserves the attempt time. -/
lemma no_attempt_preserve (s : SubState) (e : TickEnv)
    (h : (subscriberTick s e).2.reconnectAttempted = false) :
    (subscriberTick s e).1.last_serial_connect_attempt =
      s.last_serial_connect_attempt := by
  have hr : (subscriberTick s e).2.reconnectAttempted = (reconnectPhase s e).2 := rfl
  rw [hr] at h
  have hst : (subscriberTick s e).1.last_serial_connect_attempt =
      (reconnectPhase s e).1.last_serial_connect_attempt :=
    schedulePhase_last_attempt (reconnectPhase s e).1 e.minute e.sendOk
  rw [hst]
  unfold reconnectPhase at h ⊢
  split_ifs at h ⊢ <;> simp_all

/-- The OFF branch is unreachable on a tick whose minute matches
`on_time`: the command of such a tick, if any, is never a `0`. -/
lemma schedulePhase_on_no_off (s : SubState) (m : String) (ok : Bool) (r : Bool)
    (h : s.schedule_on = some m) :
    (schedulePhase s m ok).2 ≠ some ('0', r) := by
  unfold schedulePhase
  split_ifs <;> simp_all

/-- C1: a valid schedule message replaces the Schedule Store and clears
`last_command_sent_minute`, but — contrary to the claim — it does NOT clear
the device state: `on_message` assigns `last_known_state` without listing
it in its `global` declaration, so only a function-local name is set and
the global keeps its old value `'1'` here.  (The comment of the source on
that very line says the known state is being reset, so this is a slip in the
code, not in the spec.) -/
theorem C1_schedule_message_keeps_device_state :
    onMessage
      { schedule_on := some "06:00", schedule_off := some "18:00",
        connected := true, last_command_sent_minute := some "06:00",
        last_known_state := some '1', last_serial_connect_attempt := 0 }
      (some (Json.obj [("on_time", Json.str "07:00"),
                       ("off_time", Json.str "19:00")]))
      =
      { schedule_on := some "07:00", schedule_off := some "19:00",
        connected := true, last_command_sent_minute := none,
        last_known_state := some '1', last_serial_connect_attempt := 0 } := by
  decide

/-- C3 (counterexample): the claim says every time string that is not
strict zero-padded `HH:MM` is rejected, naming `9:5` as an example; but
the CPython `strptime` accepts one- or two-digit fields, so a message with
`on_time = 9:5` is accepted and the Schedule Store is overwritten. -/
theorem C3_lenient_counterexample :
    onMessage
      { schedule_on := none, schedule_off := none, connected := true,
        last_command_sent_minute := none, last_known_state := none,
        last_serial_connect_attempt := 0 }
      (some (Json.obj [("on_time", Json.str "9:5"),
                       ("off_time", Json.str "19:00")]))
      =
      { schedule_on := some "9:5", schedule_off := some "19:00",
        connected := true, last_command_sent_minute := none,
        last_known_state := none, last_serial_connect_attempt := 0 } := by
  decide

/-- C3 (amended): a schedule message is accepted exactly when both values
are strings matching the lenient `strptime` pattern for `%H:%M` (one- or
two-digit hour `0..23`, colon, one- or two-digit minute `0..59`; zero
padding optional); any other payload — out-of-range fields such as
`25:99`, non-strings, missing keys, non-objects, unparsable text — leaves
the entire state, in particular both Schedule Store fields, unchanged, so
a field is never updated without the other. -/
theorem C3_time_validation :
    (∀ (s : SubState) (j : Json), scheduleOk j = false →
        onMessage s (some j) = s)
    ∧ (∀ (s : SubState), onMessage s none = s)
    ∧ (∀ (s : SubState) (kvs : List (String × Json)) (a b : String),
        lookupKey kvs "on_time" = some (Json.str a) →
        lookupKey kvs "off_time" = some (Json.str b) →
        validHM a = true → validHM b = true →
        onMessage s (some (Json.obj kvs)) =
          { s with schedule_on := some a, schedule_off := some b,
                   last_command_sent_minute := none })
    ∧ validHM "25:99" = false ∧ validHM "9:5" = true := by
  refine ⟨?_, fun s => rfl, ?_, by decide, by decide⟩
  · intro s j h
    cases j with
    | obj kvs =>
      unfold scheduleOk at h
      unfold onMessage
      rcases h1 : lookupKey kvs "on_time" with _ | v1 <;>
        rcases h2 : lookupKey kvs "off_time" with _ | v2 <;>
          simp only [h1, h2] at h ⊢
      cases v1 <;> cases v2 <;> simp_all
    | null => rfl
    | bool b => rfl
    | num n => rfl
    | str t => rfl
    | arr xs => rfl
  · intro s kvs a b h1 h2 hva hvb
    unfold onMessage
    simp [h1, h2, hva, hvb]

/-- C3 (witness): the out-of-range string `25:99` is rejected and the
state is unchanged. -/
theorem C3_time_validation_witness :
    onMessage
      { schedule_on := some "06:00", schedule_off := some "18:00",
        connected := true, last_command_sent_minute := some "06:00",
        last_known_state := some '0', last_serial_connect_attempt := 3 }
      (some (Json.obj [("on_time", Json.str "25:99"),
                       ("off_time", Json.str "19:00")]))
      =
      { schedule_on := some "06:00", schedule_off := some "18:00",
        connected := true, last_command_sent_minute := some "06:00",
        last_known_state := some '0', last_serial_connect_attempt := 3 } :=
  C3_time_validation.1 _
    (Json.obj [("on_time", Json.str "25:99"), ("off_time", Json.str "19:00")])
    (by decide)

/-- C6: ON and OFF are mutually exclusive branches checked in fixed order
(an `elif`), ON first; on any tick whose minute matches `on_time` — in
particular when `on_time` equals `off_time` and the minute matches both —
no OFF command is ever written or even attempted. -/
theorem C6_tie_break (s : SubState) (e : TickEnv) (r : Bool)
    (h : s.schedule_on = some e.minute) :
    (subscriberTick s e).2.send ≠ some ('0', r) :=
  schedulePhase_on_no_off (reconnectPhase s e).1 e.minute e.sendOk r
    (by rw [reconnectPhase_schedule_on s e]; exact h)

/-- C6 (witness): with `on_time = off_time = 07:00` and the clock at
`07:00`, the tick does not emit an OFF command. -/
theorem C6_tie_break_witness :
    (subscriberTick
      { schedule_on := some "07:00", schedule_off := some "07:00",
        connected := true, last_command_sent_minute := none,
        last_known_state := none, last_serial_connect_attempt := 0 }
      { now := 50, minute := "07:00", reconnectOk := true, sendOk := true
      }).2.send ≠ some ('0', true) :=
  C6_tie_break
    { schedule_on := some "07:00", schedule_off := some "07:00",
      connected := true, last_command_sent_minute := none,
      last_known_state := none, last_serial_connect_attempt := 0 }
    { now := 50, minute := "07:00", reconnectOk := true, sendOk := true }
    true rfl

/-- C7: on a connected tick whose minute matches `on_time`, with the
debounce minute differing and the device already known ON, no command is
written, yet `last_command_sent_minute` is still set to the current
minute (so later ticks of the same minute are suppressed); nothing else
changes. -/
theorem C7_state_skip (s : SubState) (e : TickEnv)
    (hc : s.connected = true) (hon : s.schedule_on = some e.minute)
    (hl : s.last_command_sent_minute ≠ some e.minute)
    (hk : s.last_known_state = some '1') :
    subscriberTick s e =
      ({ s with last_command_sent_minute := some e.minute },
       { reconnectAttempted := false, send := none }) := by
  unfold subscriberTick reconnectPhase schedulePhase
  simp [hc, hon, hl, hk]

/-- C7 (witness): concrete state-skip tick at `07:00` with the device
already ON. -/
theorem C7_state_skip_witness :
    subscriberTick
      { schedule_on := some "07:00", schedule_off := some "19:00",
        connected := true, last_command_sent_minute := some "06:59",
        last_known_state := some '1', last_serial_connect_attempt := 0 }
      { now := 50, minute := "07:00", reconnectOk := true, sendOk := true }
      =
      ({ schedule_on := some "07:00", schedule_off := some "19:00",
         connected := true, last_command_sent_minute := some "07:00",
         last_known_state := some '1', last_serial_connect_attempt := 0 },
       { reconnectAttempted := false, send := none }) :=
  C7_state_skip
    { schedule_on := some "07:00", schedule_off := some "19:00",
      connected := true, last_command_sent_minute := some "06:59",
      last_known_state := some '1', last_serial_connect_attempt := 0 }
    { now := 50, minute := "07:00", reconnectOk := true, sendOk := true }
    rfl rfl (by decide) rfl

/-- C10: while the Schedule Store still holds its initial pair of unset
times, the schedule block of the loop (the Schedule Evaluator) writes no
command and returns the state untouched — in particular
`last_command_sent_minute` and `last_known_state` are unchanged —
whatever the wall-clock minute reads. -/
theorem C10_unset_schedule (s : SubState) (m : String) (ok : Bool)
    (h1 : s.schedule_on = none) (h2 : s.schedule_off = none) :
    schedulePhase s m ok = (s, none) := by
  unfold schedulePhase
  simp [h1, h2]

/-- C10 (witness): concrete no-op tick with the schedule unset. -/
theorem C10_unset_schedule_witness :
    schedulePhase
      { schedule_on := none, schedule_off := none, connected := true,
        last_command_sent_minute := none, last_known_state := none,
        last_serial_connect_attempt := 0 } "07:00" true
      =
      ({ schedule_on := none, schedule_off := none, connected := true,
         last_command_sent_minute := none, last_known_state := none,
         last_serial_connect_attempt := 0 }, none) :=
  C10_unset_schedule
    { schedule_on := none, schedule_off := none, connected := true,
      last_command_sent_minute := none, last_known_state := none,
      last_serial_connect_attempt := 0 } "07:00" true rfl rfl

/-- C8: whenever the inbound WebSocket payload parses as a JSON object
containing both keys, `handle_connection` hands exactly the original raw
payload — not a re-serialization — to the MQTT publish call. -/
theorem C8_forward_raw (raw : String) (j : Json) (publishOk : Bool)
    (h : isScheduleShape j = true) :
    (handleMessage raw (some j) publishOk).1 = [raw] := by
  unfold handleMessage
  simp only [h, if_true]
  cases publishOk <;> rfl

/-- C8 (witness): a well-shaped payload is forwarded verbatim. -/
theorem C8_forward_raw_witness :
    (handleMessage "rawPayloadBytes"
      (some (Json.obj [("on_time", Json.str "07:00"),
                       ("off_time", Json.str "19:00")])) true).1
      = ["rawPayloadBytes"] :=
  C8_forward_raw "rawPayloadBytes"
    (Json.obj [("on_time", Json.str "07:00"), ("off_time", Json.str "19:00")])
    true (by decide)

/-- C9: an inbound WebSocket payload that does not parse, does not parse
to an object, or lacks one of the keys, is answered with an error reply
(the invalid-JSON or invalid-format message) and nothing is handed to the
MQTT publish call. -/
theorem C9_invalid_reject (raw : String) (parsed : Option Json)
    (publishOk : Bool)
    (h : parsed = none ∨ ∃ j, parsed = some j ∧ isScheduleShape j = false) :
    (handleMessage raw parsed publishOk).1 = [] ∧
    (handleMessage raw parsed publishOk).2.status = RespStatus.error ∧
    ((handleMessage raw parsed publishOk).2.msg = RespMsg.invalidJson ∨
     (handleMessage raw parsed publishOk).2.msg = RespMsg.invalidFormat) := by
  rcases h with h | ⟨j, hj, hshape⟩
  · subst h
    exact ⟨rfl, rfl, Or.inl rfl⟩
  · subst hj
    unfold handleMessage
    simp [hshape]

/-- C9 (witness): a payload missing `off_time` gets the invalid-format
error and is not published. -/
theorem C9_invalid_reject_witness :
    (handleMessage "rawText"
      (some (Json.obj [("on_time", Json.str "07:00")])) true).1 = [] ∧
    (handleMessage "rawText"
      (some (Json.obj [("on_time", Json.str "07:00")])) true).2.status
        = RespStatus.error ∧
    ((handleMessage "rawText"
      (some (Json.obj [("on_time", Json.str "07:00")])) true).2.msg
        = RespMsg.invalidJson ∨
     (handleMessage "rawText"
      (some (Json.obj [("on_time", Json.str "07:00")])) true).2.msg
        = RespMsg.invalidFormat) :=
  C9_invalid_reject "rawText"
    (some (Json.obj [("on_time", Json.str "07:00")])) true
    (Or.inr ⟨Json.obj [("on_time", Json.str "07:00")], rfl, by decide⟩)

/-- C2 (counterexample): the reconnect gate measures time since the last
connection ATTEMPT, not since the write failure.  Here the port was
connected since time 0, a write fails at time 100, and the very next tick
at time 101 already attempts a reconnect — one second after the failure,
far less than the 10-second interval the claim requires. -/
theorem C2_reconnect_counterexample :
    runTickOuts
      { schedule_on := some "07:00", schedule_off := some "19:00",
        connected := true, last_command_sent_minute := none,
        last_known_state := none, last_serial_connect_attempt := 0 }
      [ { now := 100, minute := "07:00", reconnectOk := false, sendOk := false },
        { now := 101, minute := "07:00", reconnectOk := false, sendOk := false } ]
      = [ { reconnectAttempted := false, send := some ('1', false) },
          { reconnectAttempted := true, send := none } ]
    ∧ 101 - 100 < SERIAL_RECONNECT_DELAY_SECONDS := by
  decide

/-- C2 (amended): reconnect attempts are gated on the time of the most
recent serial connection attempt, not on the time of the write failure: in
every run, each reconnect attempt happens strictly more than the
10-second interval after the previous connection attempt (and the first
one strictly more than the interval after the initial attempt time), no
matter how many ticks pass in between; an attempt may however come sooner
than 10 seconds after the failure itself. -/
theorem C2_reconnect_gating (s : SubState) (envs : List TickEnv) :
    List.Chain (fun a b => a + SERIAL_RECONNECT_DELAY_SECONDS < b)
      s.last_serial_connect_attempt (runAttemptTimes s envs) := by
  induction envs generalizing s with
  | nil => exact List.Chain.nil
  | cons e es ih =>
    rw [runAttemptTimes]
    by_cases h : (subscriberTick s e).2.reconnectAttempted = true
    · rw [if_pos h]
      obtain ⟨h1, h2⟩ := attempt_gate s e h
      exact List.Chain.cons h1 (h2 ▸ ih (subscriberTick s e).1)
    · rw [if_neg h]
      have hp := no_attempt_preserve s e (by simpa using h)
      exact hp ▸ ih (subscriberTick s e).1

/-- C4: at most one command actually reaches the device per distinct
wall-clock minute: over any run of consecutive ticks sharing one minute
string, from any starting state and with any write/reconnect outcomes, at
most one write succeeds; and in the concrete scenario of the claim —
schedule ON 07:00 / OFF 19:00, device state unknown, three consecutive
ticks reading 07:00 — exactly one ON command is written, on the first
tick. -/
theorem C4_debounce :
    (∀ (m : String) (envs : List TickEnv) (s : SubState),
        (∀ e ∈ envs, e.minute = m) →
        sentCount (runTickOuts s envs) ≤ 1)
    ∧ runTickOuts
        { schedule_on := some "07:00", schedule_off := some "19:00",
          connected := true, last_command_sent_minute := none,
          last_known_state := none, last_serial_connect_attempt := 0 }
        [ { now := 10, minute := "07:00", reconnectOk := true, sendOk := true },
          { now := 11, minute := "07:00", reconnectOk := true, sendOk := true },
          { now := 12, minute := "07:00", reconnectOk := true, sendOk := true } ]
        = [ { reconnectAttempted := false, send := some ('1', true) },
            { reconnectAttempted := false, send := none },
            { reconnectAttempted := false, send := none } ] := by
  constructor
  · intro m envs
    induction envs with
    | nil => intro s _; exact Nat.zero_le 1
    | cons e es ih =>
      intro s hall
      have he : e.minute = m := hall e (List.mem_cons_self e es)
      by_cases hs : isSuccessSend (subscriberTick s e).2 = true
      · obtain ⟨c, hc⟩ := isSuccessSend_some _ hs
        obtain ⟨h1, h2⟩ := success_post s e c hc
        have hrest : sentCount (runTickOuts (subscriberTick s e).1 es) = 0 :=
          frozen_run_count m es (subscriberTick s e).1
            (fun x hx => hall x (List.mem_cons_of_mem e hx)) h1
            (by rw [h2, he])
        simp [runTickOuts, sentCount, hs, hrest]
      · have hb : isSuccessSend (subscriberTick s e).2 = false := by
          simpa using hs
        have hrec := ih (subscriberTick s e).1
          (fun x hx => hall x (List.mem_cons_of_mem e hx))
        simpa [runTickOuts, sentCount, hb] using hrec
  · decide

/-- C4 (witness): instance of the per-minute bound on a one-tick run. -/
theorem C4_debounce_witness :
    sentCount (runTickOuts
      { schedule_on := some "07:00", schedule_off := some "19:00",
        connected := true, last_command_sent_minute := none,
        last_known_state := none, last_serial_connect_attempt := 0 }
      [ { now := 10, minute := "07:00", reconnectOk := true, sendOk := true } ])
      ≤ 1 :=
  C4_debounce.1 "07:00"
    [ { now := 10, minute := "07:00", reconnectOk := true, sendOk := true } ]
    { schedule_on := some "07:00", schedule_off := some "19:00",
      connected := true, last_command_sent_minute := none,
      last_known_state := none, last_serial_connect_attempt := 0 }
    (by decide)

/-- C5 (counterexample): after a failed write the port is closed, so on
the very next tick of the same minute the schedule block is skipped
entirely (and here the reconnect gate — last attempt at time 95 — is still
closed at time 101); the command is NOT retried on the very next tick,
contrary to the wording of the claim. -/
theorem C5_retry_counterexample :
    runTickOuts
      { schedule_on := some "07:00", schedule_off := some "19:00",
        connected := true, last_command_sent_minute := none,
        last_known_state := none, last_serial_connect_attempt := 95 }
      [ { now := 100, minute := "07:00", reconnectOk := true, sendOk := false },
        { now := 101, minute := "07:00", reconnectOk := true, sendOk := true } ]
      = [ { reconnectAttempted := false, send := some ('1', false) },
          { reconnectAttempted := false, send := none } ]
    ∧ (runSubState
        { schedule_on := some "07:00", schedule_off := some "19:00",
          connected := true, last_command_sent_minute := none,
          last_known_state := none, last_serial_connect_attempt := 95 }
        [ { now := 100, minute := "07:00", reconnectOk := true, sendOk := false }
        ]).last_command_sent_minute = none := by
  decide

/-- C5 (amended): a failed write leaves `last_command_sent_minute` (and
everything else except the port flag) untouched, so the command is not
debounce-suppressed for the rest of the minute; it is retried not on the
very next tick — the port is closed then — but on the first tick of the
same minute at which the reconnect gate has opened and `setup_serial`
succeeds, within the same loop iteration as that reconnect. -/
theorem C5_failure_retry :
    (∀ (s : SubState) (e : TickEnv) (c : Char), s.connected = true →
        (subscriberTick s e).2.send = some (c, false) →
        (subscriberTick s e).1 = { s with connected := false })
    ∧ (∀ (s : SubState) (e : TickEnv), s.connected = false →
        SERIAL_RECONNECT_DELAY_SECONDS < e.now - s.last_serial_connect_attempt →
        e.reconnectOk = true →
        (s.schedule_on = some e.minute ∨ s.schedule_off = some e.minute) →
        ((subscriberTick s e).2.send).isSome = true) := by
  constructor
  · intro s e c hc h
    have hr : reconnectPhase s e = (s, false) := by
      unfold reconnectPhase
      rw [if_pos hc]
    have h2 : (schedulePhase s e.minute e.sendOk).2 = some (c, false) := by
      have hd : (subscriberTick s e).2.send =
          (schedulePhase (reconnectPhase s e).1 e.minute e.sendOk).2 := rfl
      rw [hd, hr] at h
      exact h
    have h3 : (schedulePhase s e.minute e.sendOk).1 =
        { s with connected := false } := by
      unfold schedulePhase at h2 ⊢
      split_ifs at h2 ⊢ <;> simp_all
    show (schedulePhase (reconnectPhase s e).1 e.minute e.sendOk).1 = _
    rw [hr]
    exact h3
  · intro s e hc hg hro hsched
    have hr : reconnectPhase s e =
        ({ s with connected := true, last_known_state := none,
                  last_command_sent_minute := none,
                  last_serial_connect_attempt := e.now }, true) := by
      unfold reconnectPhase
      rw [if_neg (by simp [hc]), if_pos hg, if_pos hro]
    have key : ∀ s1 : SubState, s1.connected = true →
        s1.last_command_sent_minute = none → s1.last_known_state = none →
        (s1.schedule_on = some e.minute ∨ s1.schedule_off = some e.minute) →
        ((schedulePhase s1 e.minute e.sendOk).2).isSome = true := by
      intro s1 c1 l1 k1 hs
      unfold schedulePhase
      rcases hs with h | h
      · simp only [c1, if_true, h, l1, k1]
        cases e.sendOk <;> simp
      · by_cases hOn : s1.schedule_on = some e.minute
        · simp only [c1, if_true, hOn, l1, k1]
          cases e.sendOk <;> simp
        · simp only [c1, if_true, hOn, if_false, h, l1, k1]
          cases e.sendOk <;> simp
    show ((schedulePhase (reconnectPhase s e).1 e.minute e.sendOk).2).isSome = true
    rw [hr]
    exact key _ rfl rfl rfl (by simpa using hsched)

/-- C5 (witness): a reconnect tick in the scheduled minute retries the
send. -/
theorem C5_failure_retry_witness :
    ((subscriberTick
      { schedule_on := some "07:00", schedule_off := some "19:00",
        connected := false, last_command_sent_minute := none,
        last_known_state := none, last_serial_connect_attempt := 0 }
      { now := 100, minute := "07:00", reconnectOk := true, sendOk := true
      }).2.send).isSome = true :=
  C5_failure_retry.2
    { schedule_on := some "07:00", schedule_off := some "19:00",
      connected := false, last_command_sent_minute := none,
      last_known_state := none, last_serial_connect_attempt := 0 }
    { now := 100, minute := "07:00", reconnectOk := true, sendOk := true }
    rfl (by decide) rfl (Or.inl rfl)
